import Mathlib

/-
Verification of the mapr memory-mapping library (src/lib.rs, src/unix.rs)
against its natural-language specification.

The unix backend is shallowly embedded: pointers and lengths are natural
numbers (addresses), syscalls are recorded in an explicit log, and the
operating system is an explicit oracle parameter (an `OS` value) deciding
the outcome of each syscall.  Each Lean definition is a direct translation
of the Rust function of the same name.
-/

/-- Error kinds surfaced by the library: `invalidInput` and `invalidData`
model `io::ErrorKind::InvalidInput` / `InvalidData`; `osError` models
`io::Error::last_os_error()` after a failed syscall. -/
inductive IoErrorKind where
  | invalidInput
  | invalidData
  | osError (errno : Nat)
deriving DecidableEq, Repr

/-- Linux value of `PROT_READ`. -/
def PROT_READ : Nat := 1
/-- Linux value of `PROT_WRITE`. -/
def PROT_WRITE : Nat := 2
/-- Linux value of `PROT_EXEC`. -/
def PROT_EXEC : Nat := 4
/-- Linux value of `MAP_SHARED`. -/
def MAP_SHARED : Nat := 1
/-- Linux value of `MAP_PRIVATE`. -/
def MAP_PRIVATE : Nat := 2
/-- Linux value of `MAP_ANON`. -/
def MAP_ANON : Nat := 32
/-- Linux value of `MAP_LOCKED` (src/unix.rs const MAP_LOCKED). -/
def MAP_LOCKED : Nat := 8192
/-- Linux value of `MAP_NORESERVE` (src/unix.rs const MAP_NORESERVE). -/
def MAP_NORESERVE : Nat := 16384
/-- Linux value of `MAP_STACK` (src/unix.rs const MAP_STACK). -/
def MAP_STACK : Nat := 131072
/-- Linux value of `MAP_HUGETLB` (src/unix.rs const MAP_HUGETLB). -/
def MAP_HUGETLB : Nat := 262144
/-- Linux value of `MAP_HUGE_2MB` = 21 shifted left by 26 bits. -/
def MAP_HUGE_2MB : Nat := 21 <<< 26
/-- Linux value of `MAP_HUGE_1GB` = 30 shifted left by 26 bits. -/
def MAP_HUGE_1GB : Nat := 30 <<< 26
/-- Linux value of `MS_SYNC`. -/
def MS_SYNC : Nat := 4
/-- Linux value of `MS_ASYNC`. -/
def MS_ASYNC : Nat := 1

/-- Arguments of an `mmap` syscall as issued by `MmapInner::new` (the address
hint is always null in the source and is omitted). `fd` is an `Int` because
`map_anon` passes `-1`. -/
structure MmapArgs where
  len : Nat
  prot : Nat
  flags : Nat
  fd : Int
  offset : Nat
deriving DecidableEq, Repr

/-- A syscall issued by the backend, with the argument values the Rust code
passes.  Start addresses are `Int` because the code forms them with
`ptr::offset` on signed displacements. -/
inductive Syscall where
  | mmap (args : MmapArgs)
  | msync (addr : Int) (len : Nat) (flags : Nat)
  | mprotect (addr : Int) (len : Nat) (prot : Nat)
  | munmap (addr : Int) (len : Nat)
  | mlock (addr : Int) (len : Nat)
  | munlock (addr : Int) (len : Nat)
deriving DecidableEq, Repr

/-- The operating-system oracle: `mmapResult` gives the raw pointer returned
by a successful `mmap` (or `none` for `MAP_FAILED`); `syscallOk` decides
whether any other syscall returns 0 (success). -/
structure OS where
  mmapResult : MmapArgs → Option Nat
  syscallOk : Syscall → Bool

/-- Translation of `struct MmapInner` (src/unix.rs): the caller-visible
pointer and the caller-requested length. -/
structure MmapInner where
  ptr : Nat
  len : Nat
deriving DecidableEq, Repr

/-- Translation of `MmapInner::new` (src/unix.rs lines 49-86).  Computes the
page-alignment correction, rejects a zero aligned length before any syscall,
then issues the `mmap` syscall and, on success, returns the raw pointer
advanced by the alignment with the original `len` stored. -/
def MmapInner.new (os : OS) (pageSize : Nat) (len : Nat) (prot : Nat)
    (flags : Nat) (file : Int) (offset : Nat) :
    List Syscall × Except IoErrorKind MmapInner :=
  let alignment := offset % pageSize
  let aligned_offset := offset - alignment
  let aligned_len := len + alignment
  if aligned_len = 0 then
    ([], .error .invalidInput)
  else
    let args : MmapArgs := ⟨aligned_len, prot, flags, file, aligned_offset⟩
    match os.mmapResult args with
    | none => ([Syscall.mmap args], .error (.osError 0))
    | some p => ([Syscall.mmap args], .ok ⟨p + alignment, len⟩)

/-- Translation of `MmapInner::map` (src/unix.rs lines 88-104). -/
def MmapInner.map (os : OS) (pageSize : Nat) (len : Nat) (fd : Int)
    (offset : Nat) (locked privateOpt : Bool) (huge : Nat) (noreserve : Bool) :
    List Syscall × Except IoErrorKind MmapInner :=
  let lockedF := if locked then MAP_LOCKED else 0
  let privateF := if privateOpt then MAP_PRIVATE else MAP_SHARED
  let hugeF := match huge with
    | 1 => MAP_HUGETLB ||| MAP_HUGE_2MB
    | 2 => MAP_HUGETLB ||| MAP_HUGE_1GB
    | _ => 0
  let noreserveF := if noreserve then MAP_NORESERVE else 0
  MmapInner.new os pageSize len PROT_READ
    (lockedF ||| privateF ||| hugeF ||| noreserveF) fd offset

/-- Translation of `MmapInner::map_exec` (src/unix.rs lines 106-122). -/
def MmapInner.map_exec (os : OS) (pageSize : Nat) (len : Nat) (fd : Int)
    (offset : Nat) (locked privateOpt : Bool) (huge : Nat) (noreserve : Bool) :
    List Syscall × Except IoErrorKind MmapInner :=
  let lockedF := if locked then MAP_LOCKED else 0
  let privateF := if privateOpt then MAP_PRIVATE else MAP_SHARED
  let hugeF := match huge with
    | 1 => MAP_HUGETLB ||| MAP_HUGE_2MB
    | 2 => MAP_HUGETLB ||| MAP_HUGE_1GB
    | _ => 0
  let noreserveF := if noreserve then MAP_NORESERVE else 0
  MmapInner.new os pageSize len (PROT_READ ||| PROT_EXEC)
    (lockedF ||| privateF ||| hugeF ||| noreserveF) fd offset

/-- Translation of `MmapInner::map_mut` (src/unix.rs lines 124-140). -/
def MmapInner.map_mut (os : OS) (pageSize : Nat) (len : Nat) (fd : Int)
    (offset : Nat) (locked privateOpt : Bool) (huge : Nat) (noreserve : Bool) :
    List Syscall × Except IoErrorKind MmapInner :=
  let lockedF := if locked then MAP_LOCKED else 0
  let privateF := if privateOpt then MAP_PRIVATE else MAP_SHARED
  let hugeF := match huge with
    | 1 => MAP_HUGETLB ||| MAP_HUGE_2MB
    | 2 => MAP_HUGETLB ||| MAP_HUGE_1GB
    | _ => 0
  let noreserveF := if noreserve then MAP_NORESERVE else 0
  MmapInner.new os pageSize len (PROT_READ ||| PROT_WRITE)
    (lockedF ||| privateF ||| hugeF ||| noreserveF) fd offset

/-- Translation of `MmapInner::map_copy` (src/unix.rs lines 142-157): no
`private` parameter, `MAP_PRIVATE` is hard-wired into the flag word. -/
def MmapInner.map_copy (os : OS) (pageSize : Nat) (len : Nat) (fd : Int)
    (offset : Nat) (locked : Bool) (huge : Nat) (noreserve : Bool) :
    List Syscall × Except IoErrorKind MmapInner :=
  let lockedF := if locked then MAP_LOCKED else 0
  let hugeF := match huge with
    | 1 => MAP_HUGETLB ||| MAP_HUGE_2MB
    | 2 => MAP_HUGETLB ||| MAP_HUGE_1GB
    | _ => 0
  let noreserveF := if noreserve then MAP_NORESERVE else 0
  MmapInner.new os pageSize len (PROT_READ ||| PROT_WRITE)
    (MAP_PRIVATE ||| lockedF ||| hugeF ||| noreserveF) fd offset

/-- Translation of `MmapInner::map_anon` (src/unix.rs lines 160-177): file
descriptor `-1`, file offset `0`. -/
def MmapInner.map_anon (os : OS) (pageSize : Nat) (len : Nat)
    (stack locked privateOpt : Bool) (huge : Nat) (noreserve : Bool) :
    List Syscall × Except IoErrorKind MmapInner :=
  let stackF := if stack then MAP_STACK else 0
  let lockedF := if locked then MAP_LOCKED else 0
  let privateF := if privateOpt then MAP_PRIVATE else MAP_SHARED
  let hugeF := match huge with
    | 1 => MAP_HUGETLB ||| MAP_HUGE_2MB
    | 2 => MAP_HUGETLB ||| MAP_HUGE_1GB
    | _ => 0
  let noreserveF := if noreserve then MAP_NORESERVE else 0
  MmapInner.new os pageSize len (PROT_READ ||| PROT_WRITE)
    (MAP_ANON ||| stackF ||| lockedF ||| privateF ||| hugeF ||| noreserveF)
    (-1) 0

/-- Translation of `MmapInner::flush` (src/unix.rs lines 179-190): the
alignment is taken from `(self.ptr + offset) mod pageSize` and the `msync`
start address is `self.ptr + (offset - alignment)` formed with signed
arithmetic. -/
def MmapInner.flush (os : OS) (pageSize : Nat) (m : MmapInner)
    (offset len : Nat) : List Syscall × Except IoErrorKind Unit :=
  let alignment := (m.ptr + offset) % pageSize
  let start : Int := (m.ptr : Int) + ((offset : Int) - (alignment : Int))
  let flushLen := len + alignment
  let c := Syscall.msync start flushLen MS_SYNC
  if os.syscallOk c then ([c], .ok ()) else ([c], .error (.osError 0))

/-- Translation of `MmapInner::flush_async` (src/unix.rs lines 192-208): the
alignment is taken from `offset mod pageSize` (not from the pointer), and the
`msync` start address is `self.ptr + aligned_offset`. -/
def MmapInner.flush_async (os : OS) (pageSize : Nat) (m : MmapInner)
    (offset len : Nat) : List Syscall × Except IoErrorKind Unit :=
  let alignment := offset % pageSize
  let aligned_offset := offset - alignment
  let aligned_len := len + alignment
  let c := Syscall.msync ((m.ptr : Int) + (aligned_offset : Int))
    aligned_len MS_ASYNC
  if os.syscallOk c then ([c], .ok ()) else ([c], .error (.osError 0))

/-- Translation of `MmapInner::mprotect` (src/unix.rs lines 210-221). -/
def MmapInner.mprotect (os : OS) (pageSize : Nat) (m : MmapInner)
    (prot : Nat) : List Syscall × Except IoErrorKind Unit :=
  let alignment := m.ptr % pageSize
  let c := Syscall.mprotect ((m.ptr : Int) - (alignment : Int))
    (m.len + alignment) prot
  if os.syscallOk c then ([c], .ok ()) else ([c], .error (.osError 0))

/-- Translation of `MmapInner::make_read_only` (src/unix.rs line 223). -/
def MmapInner.make_read_only (os : OS) (pageSize : Nat) (m : MmapInner) :
    List Syscall × Except IoErrorKind Unit :=
  MmapInner.mprotect os pageSize m PROT_READ

/-- Translation of `MmapInner::make_exec` (src/unix.rs line 227). -/
def MmapInner.make_exec (os : OS) (pageSize : Nat) (m : MmapInner) :
    List Syscall × Except IoErrorKind Unit :=
  MmapInner.mprotect os pageSize m (PROT_READ ||| PROT_EXEC)

/-- Translation of `MmapInner::make_mut` (src/unix.rs line 231). -/
def MmapInner.make_mut (os : OS) (pageSize : Nat) (m : MmapInner) :
    List Syscall × Except IoErrorKind Unit :=
  MmapInner.mprotect os pageSize m (PROT_READ ||| PROT_WRITE)

/-- Outcome of dropping an `MmapInner`: either the destructor returns
normally, or the `assert!` fails and the process is aborted with a
diagnostic message. -/
inductive DropOutcome where
  | completed
  | processAborted
deriving DecidableEq, Repr

/-- Translation of `impl Drop for MmapInner` (src/unix.rs lines 271-285):
one `munmap` over the realigned envelope; a non-zero return aborts the
process via `assert!` rather than surfacing an error value. -/
def MmapInner.drop (os : OS) (pageSize : Nat) (m : MmapInner) :
    List Syscall × DropOutcome :=
  let alignment := m.ptr % pageSize
  let c := Syscall.munmap ((m.ptr : Int) - (alignment : Int))
    (m.len + alignment)
  if os.syscallOk c then ([c], .completed) else ([c], .processAborted)

/-- Translation of `struct MmapOptions` (src/lib.rs lines 42-49).  The Rust
field `private` is named `privateOpt` because `private` is reserved in
Lean. -/
structure MmapOptions where
  offset : Nat
  len : Option Nat
  stack : Bool
  locked : Bool
  privateOpt : Bool
  huge : Nat
  noreserve : Bool
deriving DecidableEq, Repr

/-- Translation of `MmapOptions::new` / `Default` (all fields zeroed). -/
def MmapOptions.new : MmapOptions :=
  ⟨0, none, false, false, false, 0, false⟩

/-- Modulus of 64-bit unsigned arithmetic. -/
def U64_MOD : Nat := 2 ^ 64

/-- Two's-complement (release-mode) semantics of `u64` subtraction `a - b`,
which is what `file.metadata()?.len() - self.offset` compiles to when
overflow checks are off; in a debug build the underflowing case panics
instead. -/
def u64_wrapping_sub (a b : Nat) : Nat :=
  (a % U64_MOD + (U64_MOD - b % U64_MOD)) % U64_MOD

/-- Translation of `MmapOptions::get_len` (src/lib.rs lines 135-146).  The
file is modelled by its metadata length `fileLen`; `usizeMax` is the value
of `usize::MAX as u64` on the target (2^64 - 1 on 64-bit targets). -/
def MmapOptions.get_len (usizeMax : Nat) (opts : MmapOptions)
    (fileLen : Nat) : Except IoErrorKind Nat :=
  match opts.len with
  | some l => .ok l
  | none =>
    let len := u64_wrapping_sub fileLen opts.offset
    if len > usizeMax then .error .invalidData
    else .ok len

/-- Translation of `struct Mmap` (src/lib.rs): immutable handle. -/
structure Mmap where
  inner : MmapInner
deriving DecidableEq, Repr

/-- Translation of `struct MmapMut` (src/lib.rs): mutable handle. -/
structure MmapMut where
  inner : MmapInner
deriving DecidableEq, Repr

/-- Translation of `MmapOptions::map` (src/lib.rs): `get_len` runs before
any syscall, then the inner constructor is called. -/
def MmapOptions.map (os : OS) (pageSize usizeMax : Nat) (opts : MmapOptions)
    (fd : Int) (fileLen : Nat) : List Syscall × Except IoErrorKind Mmap :=
  match MmapOptions.get_len usizeMax opts fileLen with
  | .error e => ([], .error e)
  | .ok len =>
    match MmapInner.map os pageSize len fd opts.offset opts.locked
        opts.privateOpt opts.huge opts.noreserve with
    | (log, .ok inner) => (log, .ok ⟨inner⟩)
    | (log, .error e) => (log, .error e)

/-- Translation of `MmapOptions::map_exec` (src/lib.rs). -/
def MmapOptions.map_exec (os : OS) (pageSize usizeMax : Nat)
    (opts : MmapOptions) (fd : Int) (fileLen : Nat) :
    List Syscall × Except IoErrorKind Mmap :=
  match MmapOptions.get_len usizeMax opts fileLen with
  | .error e => ([], .error e)
  | .ok len =>
    match MmapInner.map_exec os pageSize len fd opts.offset opts.locked
        opts.privateOpt opts.huge opts.noreserve with
    | (log, .ok inner) => (log, .ok ⟨inner⟩)
    | (log, .error e) => (log, .error e)

/-- Translation of `MmapOptions::map_mut` (src/lib.rs). -/
def MmapOptions.map_mut (os : OS) (pageSize usizeMax : Nat)
    (opts : MmapOptions) (fd : Int) (fileLen : Nat) :
    List Syscall × Except IoErrorKind MmapMut :=
  match MmapOptions.get_len usizeMax opts fileLen with
  | .error e => ([], .error e)
  | .ok len =>
    match MmapInner.map_mut os pageSize len fd opts.offset opts.locked
        opts.privateOpt opts.huge opts.noreserve with
    | (log, .ok inner) => (log, .ok ⟨inner⟩)
    | (log, .error e) => (log, .error e)

/-- Translation of `MmapOptions::map_copy` (src/lib.rs lines 299-302): the
`private` option is not forwarded. -/
def MmapOptions.map_copy (os : OS) (pageSize usizeMax : Nat)
    (opts : MmapOptions) (fd : Int) (fileLen : Nat) :
    List Syscall × Except IoErrorKind MmapMut :=
  match MmapOptions.get_len usizeMax opts fileLen with
  | .error e => ([], .error e)
  | .ok len =>
    match MmapInner.map_copy os pageSize len fd opts.offset opts.locked
        opts.huge opts.noreserve with
    | (log, .ok inner) => (log, .ok ⟨inner⟩)
    | (log, .error e) => (log, .error e)

/-- Translation of `MmapOptions::map_anon` (src/lib.rs lines 312-314): an
unset length defaults to `self.len.unwrap_or(0)`. -/
def MmapOptions.map_anon (os : OS) (pageSize : Nat) (opts : MmapOptions) :
    List Syscall × Except IoErrorKind MmapMut :=
  match MmapInner.map_anon os pageSize (opts.len.getD 0) opts.stack
      opts.locked opts.privateOpt opts.huge opts.noreserve with
  | (log, .ok inner) => (log, .ok ⟨inner⟩)
  | (log, .error e) => (log, .error e)

/-- Translation of `MmapMut::flush_range` (src/lib.rs lines 617-619):
delegates directly to `MmapInner::flush` with no range check. -/
def MmapMut.flush_range (os : OS) (pageSize : Nat) (m : MmapMut)
    (offset len : Nat) : List Syscall × Except IoErrorKind Unit :=
  MmapInner.flush os pageSize m.inner offset len

/-- Translation of `MmapMut::flush_async_range` (src/lib.rs lines 630-632):
delegates directly to `MmapInner::flush_async` with no range check. -/
def MmapMut.flush_async_range (os : OS) (pageSize : Nat) (m : MmapMut)
    (offset len : Nat) : List Syscall × Except IoErrorKind Unit :=
  MmapInner.flush_async os pageSize m.inner offset len

/-- Translation of `Mmap::make_mut` (src/lib.rs lines 432-435).  On success
the same inner region is rewrapped as a `MmapMut`; on the error path the
question-mark operator returns early and Rust drop glue runs the `Drop`
implementation on the consumed handle, which is modelled by appending the
drop's syscalls to the log. -/
def Mmap.make_mut (os : OS) (pageSize : Nat) (m : Mmap) :
    List Syscall × Except IoErrorKind MmapMut :=
  match MmapInner.make_mut os pageSize m.inner with
  | (log, .ok _) => (log, .ok ⟨m.inner⟩)
  | (log, .error e) =>
    (log ++ (MmapInner.drop os pageSize m.inner).1, .error e)

/-- Translation of `MmapMut::make_read_only` (src/lib.rs lines 660-663),
with the error-path drop glue modelled as in `Mmap.make_mut`. -/
def MmapMut.make_read_only (os : OS) (pageSize : Nat) (m : MmapMut) :
    List Syscall × Except IoErrorKind Mmap :=
  match MmapInner.make_read_only os pageSize m.inner with
  | (log, .ok _) => (log, .ok ⟨m.inner⟩)
  | (log, .error e) =>
    (log ++ (MmapInner.drop os pageSize m.inner).1, .error e)

/-- Translation of `MmapMut::make_exec` (src/lib.rs lines 673-676), with the
error-path drop glue modelled as in `Mmap.make_mut`. -/
def MmapMut.make_exec (os : OS) (pageSize : Nat) (m : MmapMut) :
    List Syscall × Except IoErrorKind Mmap :=
  match MmapInner.make_exec os pageSize m.inner with
  | (log, .ok _) => (log, .ok ⟨m.inner⟩)
  | (log, .error e) =>
    (log ++ (MmapInner.drop os pageSize m.inner).1, .error e)

/-- The page-aligned mprotect call a region produces (statement helper). -/
def mprotectCall (pageSize : Nat) (m : MmapInner) (prot : Nat) : Syscall :=
  Syscall.mprotect ((m.ptr : Int) - ((m.ptr % pageSize : Nat) : Int))
    (m.len + m.ptr % pageSize) prot

/-- The page-aligned munmap call a region produces (statement helper). -/
def munmapCall (pageSize : Nat) (m : MmapInner) : Syscall :=
  Syscall.munmap ((m.ptr : Int) - ((m.ptr % pageSize : Nat) : Int))
    (m.len + m.ptr % pageSize)

/-- An oracle under which every syscall succeeds; `mmap` returns the
page-aligned raw pointer 8192. -/
def osOk : OS := ⟨fun _ => some 8192, fun _ => true⟩

/-- An oracle under which every syscall fails. -/
def osFail : OS := ⟨fun _ => none, fun _ => false⟩

/-- Concrete options value: private set, explicit length 16. -/
def optsPrivate : MmapOptions := ⟨0, some 16, false, false, true, 0, false⟩

/-- Concrete options value: identical to optsPrivate except private unset. -/
def optsShared : MmapOptions := ⟨0, some 16, false, false, false, 0, false⟩

/-
Helper lemmas shared between the claim theorems.
-/

/-- Helper: the mprotect wrapper is an if over the page-aligned call. -/
theorem lem_mprotect_eq (os : OS) (pageSize : Nat) (m : MmapInner)
    (prot : Nat) :
    MmapInner.mprotect os pageSize m prot =
      if os.syscallOk (mprotectCall pageSize m prot) then
        ([mprotectCall pageSize m prot], .ok ())
      else ([mprotectCall pageSize m prot], .error (.osError 0)) := rfl

/-- Helper: dropping always logs exactly the page-aligned munmap call. -/
theorem lem_drop_fst (os : OS) (pageSize : Nat) (m : MmapInner) :
    (MmapInner.drop os pageSize m).1 = [munmapCall pageSize m] := by
  simp only [MmapInner.drop, munmapCall]
  split <;> rfl

/-
Claim theorems.
-/

/-- Claim C1: with a non-zero aligned length and a successful OS mapping
call, the constructor issues exactly one mmap request of len + alignment
bytes at file offset offset - alignment (alignment = offset mod pageSize),
and returns a region whose visible pointer is the raw pointer advanced by
alignment and whose stored length is the originally requested len. -/
theorem mapr_C1_new_alignment (os : OS) (pageSize len prot flags : Nat)
    (fd : Int) (offset raw : Nat)
    (hnz : len + offset % pageSize ≠ 0)
    (hos : os.mmapResult
      ⟨len + offset % pageSize, prot, flags, fd, offset - offset % pageSize⟩
      = some raw) :
    MmapInner.new os pageSize len prot flags fd offset =
      ([Syscall.mmap
          ⟨len + offset % pageSize, prot, flags, fd,
            offset - offset % pageSize⟩],
        .ok ⟨raw + offset % pageSize, len⟩) := by
  simp only [MmapInner.new, if_neg hnz, hos]

/-- Claim C1 witness: the theorem applied at pageSize 4096, len 10,
offset 4608 (alignment 512) under the always-succeeding oracle. -/
theorem mapr_C1_witness :
    MmapInner.new osOk 4096 10 1 2 5 4608 =
      ([Syscall.mmap ⟨522, 1, 2, 5, 4096⟩], .ok ⟨8704, 10⟩) := by
  simpa using mapr_C1_new_alignment osOk 4096 10 1 2 5 4608 8192
    (by decide) rfl

/-- Claim C2 counterexample: a zero requested length with a non-page-aligned
offset (len 0, offset 512, pageSize 4096) is not rejected with InvalidInput;
the constructor issues the mmap syscall and returns a region whose stored
length is 0, refuting both the always-fails part and the length-invariant
part of the claim. -/
theorem mapr_C2_counterexample :
    MmapInner.new osOk 4096 0 1 1 5 512 =
      ([Syscall.mmap ⟨512, 1, 1, 5, 0⟩], .ok ⟨8704, 0⟩) := rfl

/-- Claim C2 amended: the constructor returns InvalidInput exactly when
len + (offset mod pageSize) = 0, and exactly in that case no syscall is
issued; a zero requested length alone is rejected only when the offset is
page-aligned. -/
theorem mapr_C2_amended (os : OS) (pageSize len prot flags : Nat) (fd : Int)
    (offset : Nat) :
    ((MmapInner.new os pageSize len prot flags fd offset).2 =
        .error .invalidInput ↔ len + offset % pageSize = 0)
    ∧ ((MmapInner.new os pageSize len prot flags fd offset).1 = []
        ↔ len + offset % pageSize = 0) := by
  by_cases h : len + offset % pageSize = 0
  · simp [MmapInner.new, h]
  · simp only [MmapInner.new, if_neg h]
    cases hos : os.mmapResult
        ⟨len + offset % pageSize, prot, flags, fd,
          offset - offset % pageSize⟩ <;>
      simp [h]

/-- Claim C3 counterexample: on a region of requested length 10, a range
flush at offset 20 (out of bounds) is not rejected with an input error
before the syscall; the msync syscall is issued and the call succeeds. -/
theorem mapr_C3_counterexample :
    MmapMut.flush_range osOk 4096 ⟨⟨4096, 10⟩⟩ 20 0 =
      ([Syscall.msync 4096 20 MS_SYNC], .ok ()) := rfl

/-- Claim C3 amended: flush_range and flush_async_range perform no range
check at all; for every offset and length, in bounds or not, they issue
exactly one msync syscall over the alignment-corrected window, and the
result is either ok or the propagated OS error, never an InvalidInput
produced by the library. -/
theorem mapr_C3_amended (os : OS) (pageSize : Nat) (m : MmapMut)
    (offset len : Nat) :
    (MmapMut.flush_range os pageSize m offset len).1 =
      [Syscall.msync
        ((m.inner.ptr : Int) +
          ((offset : Int) - (((m.inner.ptr + offset) % pageSize : Nat) : Int)))
        (len + (m.inner.ptr + offset) % pageSize) MS_SYNC]
    ∧ ((MmapMut.flush_range os pageSize m offset len).2 = .ok ()
        ∨ (MmapMut.flush_range os pageSize m offset len).2 =
          .error (.osError 0))
    ∧ (MmapMut.flush_async_range os pageSize m offset len).1 =
      [Syscall.msync
        ((m.inner.ptr : Int) + ((offset - offset % pageSize : Nat) : Int))
        (len + offset % pageSize) MS_ASYNC]
    ∧ ((MmapMut.flush_async_range os pageSize m offset len).2 = .ok ()
        ∨ (MmapMut.flush_async_range os pageSize m offset len).2 =
          .error (.osError 0)) := by
  simp only [MmapMut.flush_range, MmapMut.flush_async_range,
    MmapInner.flush, MmapInner.flush_async]
  refine ⟨?_, ?_, ?_, ?_⟩ <;> split <;> simp

/-- Claim C4: the synchronous flush aligns the msync start address with
(ptr + offset) mod pageSize, but the asynchronous flush aligns with
offset mod pageSize only; on a region whose visible base pointer is not
page-aligned (ptr 4608, pageSize 4096, raw mapping at the page-aligned
4096) the two modes issue different envelopes for the same (0, 1) range and
the asynchronous one passes the non-page-aligned start 4608 to msync. -/
theorem mapr_C4_code_bug :
    (MmapInner.flush osOk 4096 ⟨4608, 100⟩ 0 1).1 =
      [Syscall.msync 4096 513 MS_SYNC]
    ∧ (MmapInner.flush_async osOk 4096 ⟨4608, 100⟩ 0 1).1 =
      [Syscall.msync 4608 1 MS_ASYNC]
    ∧ (4096 : Int) % 4096 = 0
    ∧ (4608 : Int) % 4096 = 512 := ⟨rfl, rfl, rfl, rfl⟩

/-- Claim C5: each protection transition consumes the source handle; on
success it returns a handle of the target type wrapping the very same inner
region (same pointer, same length) having issued only the mprotect call; on
failure the source handle is not returned, the error is surfaced, and the
log additionally contains the drop-path munmap of the region's envelope. -/
theorem mapr_C5_transitions (os : OS) (pageSize : Nat) (m : Mmap)
    (mm : MmapMut) :
    (Mmap.make_mut os pageSize m =
        ([mprotectCall pageSize m.inner (PROT_READ ||| PROT_WRITE)],
          .ok ⟨m.inner⟩)
      ∨ Mmap.make_mut os pageSize m =
        ([mprotectCall pageSize m.inner (PROT_READ ||| PROT_WRITE),
          munmapCall pageSize m.inner], .error (.osError 0)))
    ∧ (MmapMut.make_read_only os pageSize mm =
        ([mprotectCall pageSize mm.inner PROT_READ], .ok ⟨mm.inner⟩)
      ∨ MmapMut.make_read_only os pageSize mm =
        ([mprotectCall pageSize mm.inner PROT_READ,
          munmapCall pageSize mm.inner], .error (.osError 0)))
    ∧ (MmapMut.make_exec os pageSize mm =
        ([mprotectCall pageSize mm.inner (PROT_READ ||| PROT_EXEC)],
          .ok ⟨mm.inner⟩)
      ∨ MmapMut.make_exec os pageSize mm =
        ([mprotectCall pageSize mm.inner (PROT_READ ||| PROT_EXEC),
          munmapCall pageSize mm.inner], .error (.osError 0))) := by
  refine ⟨?_, ?_, ?_⟩
  · simp only [Mmap.make_mut, MmapInner.make_mut, lem_mprotect_eq]
    by_cases h : os.syscallOk
        (mprotectCall pageSize m.inner (PROT_READ ||| PROT_WRITE)) <;>
      simp [h, lem_drop_fst]
  · simp only [MmapMut.make_read_only, MmapInner.make_read_only,
      lem_mprotect_eq]
    by_cases h : os.syscallOk (mprotectCall pageSize mm.inner PROT_READ) <;>
      simp [h, lem_drop_fst]
  · simp only [MmapMut.make_exec, MmapInner.make_exec, lem_mprotect_eq]
    by_cases h : os.syscallOk
        (mprotectCall pageSize mm.inner (PROT_READ ||| PROT_EXEC)) <;>
      simp [h, lem_drop_fst]

/-- Claim C6: each protection change issues exactly one mprotect syscall
over the page-aligned envelope starting at basePointer minus
(basePointer mod pageSize) with length requestedLength plus that alignment,
with protection PROT_READ for make_read_only, PROT_READ or-ed with
PROT_WRITE for make_mut, PROT_READ or-ed with PROT_EXEC for make_exec, and
reports success exactly when that single syscall succeeds. -/
theorem mapr_C6_mprotect_envelope (os : OS) (pageSize : Nat)
    (m : MmapInner) :
    (MmapInner.make_read_only os pageSize m).1 =
      [mprotectCall pageSize m PROT_READ]
    ∧ ((MmapInner.make_read_only os pageSize m).2 = .ok ()
        ↔ os.syscallOk (mprotectCall pageSize m PROT_READ) = true)
    ∧ (MmapInner.make_mut os pageSize m).1 =
      [mprotectCall pageSize m (PROT_READ ||| PROT_WRITE)]
    ∧ ((MmapInner.make_mut os pageSize m).2 = .ok ()
        ↔ os.syscallOk
          (mprotectCall pageSize m (PROT_READ ||| PROT_WRITE)) = true)
    ∧ (MmapInner.make_exec os pageSize m).1 =
      [mprotectCall pageSize m (PROT_READ ||| PROT_EXEC)]
    ∧ ((MmapInner.make_exec os pageSize m).2 = .ok ()
        ↔ os.syscallOk
          (mprotectCall pageSize m (PROT_READ ||| PROT_EXEC)) = true) := by
  simp only [MmapInner.make_read_only, MmapInner.make_mut,
    MmapInner.make_exec, lem_mprotect_eq]
  refine ⟨?_, ?_, ?_, ?_, ?_, ?_⟩ <;> split <;> simp_all

/-- Claim C7: releasing a region issues exactly one munmap call, over
requestedLength + alignmentOffset bytes starting at basePointer minus
alignmentOffset (alignmentOffset = basePointer mod pageSize), and a failed
munmap aborts the process (the destructor has no error channel) exactly
when the syscall fails. -/
theorem mapr_C7_drop (os : OS) (pageSize : Nat) (m : MmapInner) :
    (MmapInner.drop os pageSize m).1 = [munmapCall pageSize m]
    ∧ ((MmapInner.drop os pageSize m).2 = DropOutcome.processAborted
        ↔ os.syscallOk (munmapCall pageSize m) = false) := by
  simp only [MmapInner.drop, munmapCall]
  constructor
  · split <;> rfl
  · split <;> simp_all

/-- Claim C8 counterexample: with no configured length, offset 1 and file
length 0 (offset greater than the file length), get_len on a 64-bit target
does not return an input error; the u64 subtraction wraps around and the
huge wrapped value is accepted, because usize::MAX equals u64::MAX there. -/
theorem mapr_C8_counterexample :
    MmapOptions.get_len (2 ^ 64 - 1)
      ⟨1, none, false, false, false, 0, false⟩ 0 = .ok (2 ^ 64 - 1) := by
  norm_num [MmapOptions.get_len, u64_wrapping_sub, U64_MOD]

/-- Claim C8 amended: with no configured length and offset at most the file
length (both below 2^64), the inferred length is exactly fileLen - offset,
and it is rejected with InvalidData exactly when it exceeds usize::MAX;
whenever get_len fails, the file-backed constructor issues no syscall and
propagates the error.  For offset greater than the file length the u64
subtraction underflows (wrapping in release builds, a panic in debug
builds) instead of producing an input error. -/
theorem mapr_C8_amended :
    (∀ (opts : MmapOptions) (usizeMax fileLen : Nat),
      opts.len = none → opts.offset ≤ fileLen → fileLen < 2 ^ 64 →
      MmapOptions.get_len usizeMax opts fileLen =
        if fileLen - opts.offset > usizeMax then .error .invalidData
        else .ok (fileLen - opts.offset))
    ∧ (∀ (os : OS) (pageSize usizeMax : Nat) (opts : MmapOptions) (fd : Int)
        (fileLen : Nat) (e : IoErrorKind),
      MmapOptions.get_len usizeMax opts fileLen = .error e →
      MmapOptions.map os pageSize usizeMax opts fd fileLen =
        ([], .error e)) := by
  constructor
  · intro opts usizeMax fileLen hlen hle hlt
    have hM : U64_MOD = 18446744073709551616 := by norm_num [U64_MOD]
    have hw : u64_wrapping_sub fileLen opts.offset =
        fileLen - opts.offset := by
      unfold u64_wrapping_sub
      rw [hM]
      omega
    simp only [MmapOptions.get_len, hlen, hw]
  · intro os pageSize usizeMax opts fd fileLen e h
    simp only [MmapOptions.map, h]

/-- Claim C8 witness: the amended theorem applied with offset 2, file
length 10 and the 64-bit usize::MAX; the inferred length is 8. -/
theorem mapr_C8_witness :
    MmapOptions.get_len (2 ^ 64 - 1)
      ⟨2, none, false, false, false, 0, false⟩ 10 = .ok 8 := by
  have h := mapr_C8_amended.1 ⟨2, none, false, false, false, 0, false⟩
    (2 ^ 64 - 1) 10 rfl (by norm_num) (by norm_num)
  norm_num at h
  exact h

/-- Claim C9: calling map_anon on an options value whose length was never
configured defaults the length to 0, which (with the anonymous offset 0) is
rejected with InvalidInput before any syscall: the log is empty. -/
theorem mapr_C9_map_anon_unset (os : OS) (pageSize : Nat)
    (opts : MmapOptions) (h : opts.len = none) :
    MmapOptions.map_anon os pageSize opts = ([], .error .invalidInput) := by
  simp [MmapOptions.map_anon, MmapInner.map_anon, MmapInner.new, h]

/-- Claim C9 witness: the theorem applied to the default options value
under the always-failing oracle (the oracle is never consulted). -/
theorem mapr_C9_witness :
    MmapOptions.map_anon osFail 4096 MmapOptions.new =
      ([], .error .invalidInput) :=
  mapr_C9_map_anon_unset osFail 4096 MmapOptions.new rfl

/-- Helper: the options-level map_copy wrapper preserves the inner log. -/
theorem lem_map_copy_fst (os : OS) (pageSize usizeMax : Nat)
    (opts : MmapOptions) (fd : Int) (fileLen len : Nat)
    (h : MmapOptions.get_len usizeMax opts fileLen = .ok len) :
    (MmapOptions.map_copy os pageSize usizeMax opts fd fileLen).1 =
      (MmapInner.map_copy os pageSize len fd opts.offset opts.locked
        opts.huge opts.noreserve).1 := by
  simp only [MmapOptions.map_copy, h]
  rcases hm : MmapInner.map_copy os pageSize len fd opts.offset opts.locked
    opts.huge opts.noreserve with ⟨log, r⟩
  cases r <;> simp

/-- Helper: a flag word built from MAP_PRIVATE and any combination of the
lock, huge-page and no-reserve flags has the MAP_PRIVATE bit set and the
MAP_SHARED bit clear. -/
theorem lem_flags_bits (l h n : Nat)
    (hl : l = 0 ∨ l = MAP_LOCKED)
    (hh : h = 0 ∨ h = MAP_HUGETLB ||| MAP_HUGE_2MB
      ∨ h = MAP_HUGETLB ||| MAP_HUGE_1GB)
    (hn : n = 0 ∨ n = MAP_NORESERVE) :
    (MAP_PRIVATE ||| l ||| h ||| n) &&& (MAP_PRIVATE ||| MAP_SHARED) =
      MAP_PRIVATE := by
  rcases hl with rfl | rfl <;> rcases hh with rfl | rfl | rfl <;>
    rcases hn with rfl | rfl <;> decide

/-- Helper: the inner map_copy either issues no syscall or exactly one mmap
whose flag word has the MAP_PRIVATE bit set and the MAP_SHARED bit clear. -/
theorem lem_map_copy_inner_fst (os : OS) (pageSize len : Nat) (fd : Int)
    (offset : Nat) (locked : Bool) (huge : Nat) (noreserve : Bool) :
    (MmapInner.map_copy os pageSize len fd offset locked huge noreserve).1
      = []
    ∨ ∃ a : MmapArgs,
      (MmapInner.map_copy os pageSize len fd offset locked huge
        noreserve).1 = [Syscall.mmap a]
      ∧ a.flags &&& (MAP_PRIVATE ||| MAP_SHARED) = MAP_PRIVATE := by
  simp only [MmapInner.map_copy, MmapInner.new]
  split
  · left; rfl
  · split
    · right
      refine ⟨_, rfl, lem_flags_bits _ _ _ ?_ ?_ ?_⟩
      · cases locked <;> simp
      · rcases huge with _ | _ | _ | n <;> simp
      · cases noreserve <;> simp
    · right
      refine ⟨_, rfl, lem_flags_bits _ _ _ ?_ ?_ ?_⟩
      · cases locked <;> simp
      · rcases huge with _ | _ | _ | n <;> simp
      · cases noreserve <;> simp

/-- Claim C10: map_copy ignores the private option entirely (the produced
request is identical whatever that option is set to) and always requests a
MAP_PRIVATE, not MAP_SHARED, mapping; by contrast map, map_exec and map_mut
each flip the sharing flag of their mmap request between MAP_PRIVATE and
MAP_SHARED according to the private option (shown on two option values that
differ only in that option), so map_copy is the only file-backed
constructor whose sharing mode does not depend on it. -/
theorem mapr_C10_map_copy_private (os : OS) (pageSize usizeMax : Nat)
    (opts : MmapOptions) (fd : Int) (fileLen : Nat) (b : Bool) :
    MmapOptions.map_copy os pageSize usizeMax
        { opts with privateOpt := b } fd fileLen =
      MmapOptions.map_copy os pageSize usizeMax opts fd fileLen
    ∧ ((MmapOptions.map_copy os pageSize usizeMax opts fd fileLen).1 = []
      ∨ ∃ a : MmapArgs,
        (MmapOptions.map_copy os pageSize usizeMax opts fd fileLen).1 =
          [Syscall.mmap a]
        ∧ a.flags &&& (MAP_PRIVATE ||| MAP_SHARED) = MAP_PRIVATE)
    ∧ (MmapOptions.map osOk 4096 1000 optsPrivate 7 100).1 =
      [Syscall.mmap ⟨16, PROT_READ, MAP_PRIVATE, 7, 0⟩]
    ∧ (MmapOptions.map osOk 4096 1000 optsShared 7 100).1 =
      [Syscall.mmap ⟨16, PROT_READ, MAP_SHARED, 7, 0⟩]
    ∧ (MmapOptions.map_exec osOk 4096 1000 optsPrivate 7 100).1 =
      [Syscall.mmap ⟨16, PROT_READ ||| PROT_EXEC, MAP_PRIVATE, 7, 0⟩]
    ∧ (MmapOptions.map_exec osOk 4096 1000 optsShared 7 100).1 =
      [Syscall.mmap ⟨16, PROT_READ ||| PROT_EXEC, MAP_SHARED, 7, 0⟩]
    ∧ (MmapOptions.map_mut osOk 4096 1000 optsPrivate 7 100).1 =
      [Syscall.mmap ⟨16, PROT_READ ||| PROT_WRITE, MAP_PRIVATE, 7, 0⟩]
    ∧ (MmapOptions.map_mut osOk 4096 1000 optsShared 7 100).1 =
      [Syscall.mmap ⟨16, PROT_READ ||| PROT_WRITE, MAP_SHARED, 7, 0⟩]
    ∧ (MAP_PRIVATE == MAP_SHARED) = false := by
  refine ⟨rfl, ?_, rfl, rfl, rfl, rfl, rfl, rfl, rfl⟩
  cases hg : MmapOptions.get_len usizeMax opts fileLen with
  | error e => left; simp [MmapOptions.map_copy, hg]
  | ok len =>
    rw [lem_map_copy_fst os pageSize usizeMax opts fd fileLen len hg]
    exact lem_map_copy_inner_fst os pageSize len fd opts.offset opts.locked
      opts.huge opts.noreserve
